import Mathlib

/-!
Shallow embedding of the DVP POST IO scheduler (`post.py`, `config.py`).

The `tweets` table is modelled as a `List Tweet`; a SQL `UPDATE ... SET ... WHERE ...`
is modelled by `sqlUpdate`, which returns the affected-row count (`cur.rowcount`)
together with the new table.  `NOW()` and the md5 ownership token generated inside
`mark_as_processing` are nondeterministic in the source and are passed as
parameters.  External effects (the Mastodon publish call, psycopg2 errors while
fetching the user's access token) are inputs to the per-tweet dispatch step.
-/

namespace DVP

/-- One row of the `tweets` table (columns as used by `post.py`). -/
structure Tweet where
  id : Nat
  user_id : Nat
  message : String
  schedule_time : Int
  visibility : String
  status : String
  retry_count : Option Nat
  processing_id : Option String
  processing_started : Option Int
  posted_at : Option Int
  error_message : Option String
  deriving Repr, DecidableEq

/-- One row of the `users` table (columns as used by `post.py`). -/
structure User where
  mastodon_id : Nat
  access_token : Option String
  deriving Repr, DecidableEq

/-- Result of a SQL `UPDATE`: `cur.rowcount` and the table afterwards. -/
structure UpdateResult where
  rowcount : Nat
  db : List Tweet
  deriving Repr, DecidableEq

/-- `UPDATE tweets SET ... WHERE cond`: every row satisfying `cond` is rewritten
by `f`; `rowcount` is the number of rows matched. -/
def sqlUpdate (db : List Tweet) (cond : Tweet → Bool) (f : Tweet → Tweet) : UpdateResult :=
  ⟨(db.filter cond).length, db.map (fun r => if cond r then f r else r)⟩

/-- `SELECT ... FROM tweets WHERE id = tid` (first matching row, as
`cur.fetchone()` returns). -/
def getRow (db : List Tweet) (tid : Nat) : Option Tweet :=
  db.find? (fun r => r.id == tid)

/-- The `SELECT status FROM tweets WHERE id = %s` pre-check in
`mark_as_processing`. -/
def selectStatus (db : List Tweet) (tid : Nat) : Option String :=
  (getRow db tid).map (fun r => r.status)

/-- Row rewrite performed by the claim update in `mark_as_processing`:
`SET status = 'processing', processing_id = %s, processing_started = NOW()`. -/
def claimSet (pid : String) (now : Int) (r : Tweet) : Tweet :=
  { r with status := "processing", processing_id := some pid, processing_started := some now }

/-- `mark_as_processing(conn, tweet_id)` from `post.py`: pre-checks that the row
exists and is `'pending'`, then runs the conditional update
`WHERE id = %s AND status = 'pending'`; returns the fresh `processing_id` on
success (Python returns `False` on failure, modelled as `none`).  The md5 token
and `NOW()` are parameters `pid`, `now`. -/
def mark_as_processing (db : List Tweet) (tid : Nat) (pid : String) (now : Int) :
    Option String × List Tweet :=
  match selectStatus db tid with
  | none => (none, db)
  | some s =>
    if s = "pending" then
      let u := sqlUpdate db (fun r => r.id == tid && r.status == "pending") (claimSet pid now)
      if u.rowcount = 0 then (none, db) else (some pid, u.db)
    else (none, db)

/-- `verify_processing_id(conn, tweet_id, processing_id)` from `post.py`:
`SELECT processing_id FROM tweets WHERE id = %s AND status = 'processing'`,
then compare with the caller's token. -/
def verify_processing_id (db : List Tweet) (tid : Nat) (pid : String) : Bool :=
  match db.find? (fun r => r.id == tid && r.status == "processing") with
  | none => false
  | some r => r.processing_id == some pid

/-- Row rewrite of the success reconciliation: `SET status='posted',
posted_at=NOW(), processing_id=NULL, processing_started=NULL`. -/
def postedSet (now : Int) (r : Tweet) : Tweet :=
  { r with status := "posted", posted_at := some now,
           processing_id := none, processing_started := none }

/-- Success reconciliation (post.py lines 370-377):
`UPDATE tweets SET status='posted', posted_at=NOW(), processing_id=NULL,
processing_started=NULL WHERE id = %s AND processing_id = %s`. -/
def markPostedUpdate (db : List Tweet) (tid : Nat) (pid : String) (now : Int) : UpdateResult :=
  sqlUpdate db (fun r => r.id == tid && r.processing_id == some pid) (postedSet now)

/-- Row rewrite of the failure reconciliation (post.py lines 404-412):
increments `retry_count`, decides `status` from the new count (`>= 3` ⇒
`'failed'`, else `'pending'`), stores the (already truncated) error text and
clears the processing fields. -/
def failRetrySet (err : String) (r : Tweet) : Tweet :=
  { r with retry_count := some (r.retry_count.getD 0 + 1),
           status := if r.retry_count.getD 0 + 1 ≥ 3 then "failed" else "pending",
           error_message := some err,
           processing_id := none, processing_started := none }

/-- Failure reconciliation (post.py lines 404-412), as a conditional update
`WHERE id = %s AND processing_id = %s` applying `failRetrySet`. -/
def failRetryUpdate (db : List Tweet) (tid : Nat) (pid : String) (err : String) : UpdateResult :=
  sqlUpdate db (fun r => r.id == tid && r.processing_id == some pid) (failRetrySet err)

/-- Row rewrite of the missing-credential reconciliation (post.py lines
330-333): `SET status='failed', processing_id=NULL, processing_started=NULL`;
`retry_count` is not touched. -/
def failNoTokenSet (r : Tweet) : Tweet :=
  { r with status := "failed", processing_id := none, processing_started := none }

/-- Missing-credential reconciliation as a conditional update
`WHERE id = %s AND processing_id = %s` applying `failNoTokenSet`. -/
def failNoTokenUpdate (db : List Tweet) (tid : Nat) (pid : String) : UpdateResult :=
  sqlUpdate db (fun r => r.id == tid && r.processing_id == some pid) failNoTokenSet

/-- Row rewrite shared by the two resets in `post.py`:
`SET status='pending', processing_id=NULL, processing_started=NULL`. -/
def resetPendingSet (r : Tweet) : Tweet :=
  { r with status := "pending", processing_id := none, processing_started := none }

/-- Reset after a database error while fetching the access token (post.py lines
316-319): `UPDATE tweets SET status='pending', processing_id=NULL,
processing_started=NULL WHERE id = %s AND processing_id = %s`. -/
def resetAfterTokenError (db : List Tweet) (tid : Nat) (pid : String) : UpdateResult :=
  sqlUpdate db (fun r => r.id == tid && r.processing_id == some pid) resetPendingSet

/-- Startup reset (post.py lines 228-231): `UPDATE tweets SET status='pending',
processing_id=NULL, processing_started=NULL WHERE status = 'processing'` —
unconditional on the row's age, run once before the poll loop; `post.py`
contains no other write that resets stuck rows. -/
def resetStuckProcessing (db : List Tweet) : UpdateResult :=
  sqlUpdate db (fun r => r.status == "processing") resetPendingSet

/-- The batch query (post.py lines 274-281): `SELECT ... FROM tweets WHERE
schedule_time <= NOW() AND status = 'pending' ORDER BY schedule_time LIMIT 5`. -/
def fetchDueTweets (db : List Tweet) (now : Int) : List Tweet :=
  ((db.filter (fun r => decide (r.schedule_time ≤ now) && r.status == "pending")).mergeSort
    (fun a b => decide (a.schedule_time ≤ b.schedule_time))).take 5

/-- `SELECT access_token FROM users WHERE mastodon_id = %s` (post.py line 307);
`none` when no row is found or the column is NULL. -/
def fetchAccessToken (users : List User) (uid : Nat) : Option String :=
  match users.find? (fun u => u.mastodon_id == uid) with
  | none => none
  | some u => u.access_token

/-- Python truthiness of the fetched access token: `if not access_token`. -/
def pyFalsy : Option String → Bool
  | none => true
  | some s => s.isEmpty

/-- Outcome of the external Mastodon call `status_post` for one tweet. -/
inductive PublishOutcome where
  | success
  | failure (err : String)
  deriving Repr, DecidableEq

/-- External events affecting the dispatch of one tweet: whether the
access-token `SELECT` raises a psycopg2 error, and the publish outcome. -/
structure TweetEvents where
  tokenFetchError : Bool
  publish : PublishOutcome
  deriving Repr, DecidableEq

/-- Result of dispatching one tweet: the table afterwards and whether the
external publish call was attempted. -/
structure StepResult where
  db : List Tweet
  attemptedPublish : Bool
  deriving Repr, DecidableEq

/-- The body of the per-tweet loop in `post_scheduled_tweets` (post.py lines
288-424) for one fetched tweet `t`: claim (`mark_as_processing`), fetch the
owner's credential, and reconcile the publish outcome — each arm exactly as in
the source, including the `verify_processing_id` re-checks.  `pid` is the md5
token the claim would generate; `now` stands for `NOW()`. -/
def processTweet (db : List Tweet) (users : List User) (ev : TweetEvents)
    (t : Tweet) (pid : String) (now : Int) : StepResult :=
  match mark_as_processing db t.id pid now with
  | (none, db1) => ⟨db1, false⟩
  | (some p, db1) =>
    if ev.tokenFetchError then
      ⟨(resetAfterTokenError db1 t.id p).db, false⟩
    else if pyFalsy (fetchAccessToken users t.user_id) then
      ⟨(failNoTokenUpdate db1 t.id p).db, false⟩
    else if verify_processing_id db1 t.id p = false then
      ⟨db1, false⟩
    else
      match ev.publish with
      | .success =>
        if verify_processing_id db1 t.id p = false then ⟨db1, true⟩
        else ⟨(markPostedUpdate db1 t.id p now).db, true⟩
      | .failure err =>
        if verify_processing_id db1 t.id p = false then ⟨db1, true⟩
        else ⟨(failRetryUpdate db1 t.id p (err.take 500)).db, true⟩

/-- Sequential processing of the fetched batch, in fetched order (the `for
tweet in tweets` loop).  `ev` and `pids` give, per tweet id, the external
events and the md5 token of its claim attempt. -/
def processBatch (db : List Tweet) (users : List User) (ev : Nat → TweetEvents)
    (pids : Nat → String) (now : Int) : List Tweet :=
  (fetchDueTweets db now).foldl (fun acc t => (processTweet acc users (ev t.id) t (pids t.id) now).db) db

/-- As `processBatch`, but the cycle raises an unhandled exception after `k`
tweets; the exception is caught at the loop boundary (post.py line 428). -/
def processPrefix (db : List Tweet) (users : List User) (ev : Nat → TweetEvents)
    (pids : Nat → String) (now : Int) (k : Nat) : List Tweet :=
  ((fetchDueTweets db now).take k).foldl
    (fun acc t => (processTweet acc users (ev t.id) t (pids t.id) now).db) db

/-- `acquire_lock` (post.py lines 71-85): a non-blocking `fcntl.flock`; returns
a handle or `none` when the lock is held by another instance.  Whether the
flock succeeds is an OS-level input. -/
def acquire_lock (lockAvailable : Bool) : Option Unit :=
  if lockAvailable then some () else none

/-- Result of one iteration of the `while True` poll loop. -/
structure CycleResult where
  db : List Tweet
  acquiredLock : Bool
  storeRead : Bool
  releasedLock : Bool
  deriving Repr, DecidableEq

/-- One iteration of the main loop (post.py lines 251-446).  If the lock is not
acquired the iteration only sleeps (`continue`): no store connection is opened,
no row is read or written.  Otherwise the due batch is fetched and processed;
`raiseAfter = some k` models an unhandled exception after `k` tweets, caught by
the `except` at the loop boundary.  The `finally` block always runs
`release_lock`. -/
def pollCycle (lockAvailable : Bool) (raiseAfter : Option Nat) (db : List Tweet)
    (users : List User) (ev : Nat → TweetEvents) (pids : Nat → String) (now : Int) :
    CycleResult :=
  match acquire_lock lockAvailable with
  | none => ⟨db, false, false, true⟩
  | some _ =>
    match raiseAfter with
    | none => ⟨processBatch db users ev pids now, true, true, true⟩
    | some k => ⟨processPrefix db users ev pids now k, true, true, true⟩

/-- The module-level attributes `config.py` defines (its assignments and
imports); used to model Python attribute lookup on the `config` module. -/
def configAttrs : List String :=
  ["os", "load_dotenv", "logging", "sys", "logger",
   "MASTODON_BASE_URL", "CLIENT_ID", "CLIENT_SECRET", "REDIRECT_URI",
   "POSTGRES_DB", "POSTGRES_USER", "POSTGRES_PASSWORD", "POSTGRES_HOST", "POSTGRES_PORT",
   "SECRET_KEY", "APP_NAME", "DEBUG", "required_env_vars", "missing_vars_details"]

/-- The configuration values `check_config` inspects, as set by `config.py`
(`none` models an attribute that is absent or `None`; an empty string is also
falsy). -/
structure Config where
  CLIENT_ID : Option String
  CLIENT_SECRET : Option String
  MASTODON_BASE_URL : Option String
  POSTGRES_DB : Option String
  POSTGRES_USER : Option String
  POSTGRES_PASSWORD : Option String
  POSTGRES_HOST : Option String
  POSTGRES_PORT : Option String
  deriving Repr, DecidableEq

/-- `get_connection` (post.py lines 34-36): evaluates
`config.RENDER_DATABASE_URL` — an `AttributeError` if `config.py` never defines
that attribute — and only then attempts `psycopg2.connect`, whose success is
the environment input `netOk`. -/
def get_connection (netOk : Bool) : Except String Unit :=
  if "RENDER_DATABASE_URL" ∈ configAttrs then
    if netOk then .ok () else .error "psycopg2 connection failed"
  else .error "AttributeError: module config has no attribute RENDER_DATABASE_URL"

/-- The required-variable list checked by `check_config` (post.py lines 41-47),
in source order. -/
def requiredVars (c : Config) : List (String × Option String) :=
  [("CLIENT_ID", c.CLIENT_ID), ("CLIENT_SECRET", c.CLIENT_SECRET),
   ("MASTODON_BASE_URL", c.MASTODON_BASE_URL),
   ("POSTGRES_DB", c.POSTGRES_DB), ("POSTGRES_USER", c.POSTGRES_USER),
   ("POSTGRES_PASSWORD", c.POSTGRES_PASSWORD), ("POSTGRES_HOST", c.POSTGRES_HOST),
   ("POSTGRES_PORT", c.POSTGRES_PORT)]

/-- The `missing` list built by `check_config`: names whose value is absent,
`None` or empty. -/
def missingVars (c : Config) : List String :=
  (requiredVars c).filterMap (fun p => if pyFalsy p.2 then some p.1 else none)

/-- `check_config` (post.py lines 39-67): fails if any required variable is
missing; otherwise attempts a database connection via `get_connection` and
fails on any exception. -/
def check_config (c : Config) (netOk : Bool) : Bool :=
  if (missingVars c).isEmpty then
    match get_connection netOk with
    | .ok _ => true
    | .error _ => false
  else false

/-- Outcome of the startup sequence of `post_scheduled_tweets`:
either the function returns before the poll loop, with the job table
untouched, or it enters `while True` with the startup-reset table. -/
inductive StartupResult where
  | refused (db : List Tweet)
  | entered (db : List Tweet)
  deriving Repr, DecidableEq

/-- Startup sequence of `post_scheduled_tweets` (post.py lines 196-248):
`check_config`, then the schema check (`schemaOk` models
`ensure_schema_updated`), then the unconditional reset of rows stuck in
`'processing'`, then the poll loop. -/
def post_scheduled_tweets_startup (c : Config) (netOk schemaOk : Bool)
    (db : List Tweet) : StartupResult :=
  if check_config c netOk then
    if schemaOk then .entered (resetStuckProcessing db).db
    else .refused db
  else .refused db

/-- Sequential claim attempts on one job id, each with its own md5 token and
timestamp — the serialization of concurrent `mark_as_processing` calls, each
of which is a single atomic conditional update at the store.  Returns the
number of successful claims and the final table. -/
def claimAttempts (db : List Tweet) (tid : Nat) : List (String × Int) → Nat × List Tweet
  | [] => (0, db)
  | a :: rest =>
    match mark_as_processing db tid a.1 a.2 with
    | (some _, db1) =>
      let r := claimAttempts db1 tid rest
      (r.1 + 1, r.2)
    | (none, db1) => claimAttempts db1 tid rest

/-! ### Helper lemmas about the store primitives -/

theorem sqlUpdate_db_eq (db : List Tweet) (cond : Tweet → Bool) (f : Tweet → Tweet) :
    (sqlUpdate db cond f).db = db.map (fun r => if cond r then f r else r) := rfl

theorem mem_sqlUpdate_of_cond_false {r : Tweet} {db : List Tweet} {cond : Tweet → Bool}
    (f : Tweet → Tweet) (hr : r ∈ db) (hc : cond r = false) :
    r ∈ (sqlUpdate db cond f).db := by
  refine List.mem_map.mpr ⟨r, hr, ?_⟩
  simp [hc]

theorem mem_sqlUpdate_of_cond_true {r : Tweet} {db : List Tweet} {cond : Tweet → Bool}
    (f : Tweet → Tweet) (hr : r ∈ db) (hc : cond r = true) :
    f r ∈ (sqlUpdate db cond f).db := by
  refine List.mem_map.mpr ⟨r, hr, ?_⟩
  simp [hc]

theorem map_id_of_cond_false {db : List Tweet} {cond : Tweet → Bool} {f : Tweet → Tweet}
    (h : ∀ r ∈ db, cond r = false) :
    db.map (fun r => if cond r then f r else r) = db := by
  induction db with
  | nil => rfl
  | cons a l ih =>
    have ha := h a (List.mem_cons_self a l)
    have hl : ∀ r ∈ l, cond r = false := fun r hr => h r (List.mem_cons_of_mem a hr)
    simp [ha, ih hl]

/-- A conditional update whose `WHERE` clause matches no row reports
`rowcount = 0` and leaves the table unchanged. -/
theorem sqlUpdate_nomatch {db : List Tweet} {cond : Tweet → Bool} (f : Tweet → Tweet)
    (h : ∀ r ∈ db, cond r = false) :
    sqlUpdate db cond f = ⟨0, db⟩ := by
  have h1 : db.filter cond = [] := by
    rw [List.filter_eq_nil_iff]
    intro a ha
    simp [h a ha]
  unfold sqlUpdate
  rw [h1, map_id_of_cond_false h]
  rfl

theorem find?_map_idpres {f : Tweet → Tweet} (hf : ∀ r, (f r).id = r.id)
    (db : List Tweet) (tid : Nat) :
    (db.map f).find? (fun r => r.id == tid) = (db.find? (fun r => r.id == tid)).map f := by
  induction db with
  | nil => rfl
  | cons a l ih =>
    by_cases hA : a.id = tid
    · rw [List.map_cons, List.find?_cons_of_pos _ (by simp [hf, hA]),
        List.find?_cons_of_pos _ (by simp [hA])]
      rfl
    · rw [List.map_cons, List.find?_cons_of_neg _ (by simp [hf, hA]),
        List.find?_cons_of_neg _ (by simp [hA]), ih]

theorem getRow_id {db : List Tweet} {tid : Nat} {r : Tweet} (h : getRow db tid = some r) :
    r.id = tid ∧ r ∈ db := by
  unfold getRow at h
  have h1 := List.find?_some h
  have h2 := List.mem_of_find?_eq_some h
  exact ⟨by simpa using h1, h2⟩

theorem selectStatus_pending {db : List Tweet} {tid : Nat}
    (h : selectStatus db tid = some "pending") :
    ∃ r0, getRow db tid = some r0 ∧ r0.status = "pending" := by
  unfold selectStatus at h
  cases hg : getRow db tid with
  | none => rw [hg] at h; simp at h
  | some r0 =>
    rw [hg] at h
    simp at h
    exact ⟨r0, rfl, h⟩

/-! ### Claim protocol lemmas -/

/-- On a `'pending'` row the claim succeeds, returns the fresh token, and the
table update is the conditional `claimSet` rewrite. -/
theorem mark_as_processing_pending {db : List Tweet} {tid : Nat} (pid : String) (now : Int)
    (h : selectStatus db tid = some "pending") :
    mark_as_processing db tid pid now =
      (some pid,
       db.map (fun r => if r.id == tid && r.status == "pending" then claimSet pid now r else r)) := by
  obtain ⟨r0, hg, hs⟩ := selectStatus_pending h
  obtain ⟨hid, hmem⟩ := getRow_id hg
  have hcond : (r0.id == tid && r0.status == "pending") = true := by simp [hid, hs]
  have hmemf : r0 ∈ db.filter (fun r => r.id == tid && r.status == "pending") :=
    List.mem_filter.mpr ⟨hmem, hcond⟩
  have hlen : (db.filter (fun r => r.id == tid && r.status == "pending")).length ≠ 0 := by
    intro h0
    rw [List.length_eq_zero] at h0
    rw [h0] at hmemf
    simp at hmemf
  simp [mark_as_processing, h, sqlUpdate, hlen]

/-- A claim attempt on a row that is absent or not `'pending'` returns a
failure value and leaves the table unchanged. -/
theorem mark_as_processing_not_pending {db : List Tweet} {tid : Nat} (pid : String) (now : Int)
    (h : selectStatus db tid ≠ some "pending") :
    mark_as_processing db tid pid now = (none, db) := by
  unfold mark_as_processing
  cases hs : selectStatus db tid with
  | none => rfl
  | some s =>
    have hne : ¬(s = "pending") := by
      intro he
      rw [he] at hs
      exact h hs
    simp [hne]

theorem mark_getRow_after {db : List Tweet} {tid : Nat} {r0 : Tweet} (pid : String) (now : Int)
    (h : selectStatus db tid = some "pending") (hg : getRow db tid = some r0) :
    getRow (mark_as_processing db tid pid now).2 tid = some (claimSet pid now r0) := by
  have hs : r0.status = "pending" := by
    unfold selectStatus at h
    rw [hg] at h
    simpa using h
  have hid : r0.id = tid := (getRow_id hg).1
  rw [mark_as_processing_pending pid now h]
  unfold getRow
  rw [find?_map_idpres (by
    intro r
    by_cases hc : (r.id == tid && r.status == "pending") = true
    · simp [hc, claimSet]
    · simp [hc])]
  rw [show db.find? (fun r => r.id == tid) = getRow db tid from rfl, hg]
  simp [hid, hs]

theorem mark_selectStatus_after {db : List Tweet} {tid : Nat} (pid : String) (now : Int)
    (h : selectStatus db tid = some "pending") :
    selectStatus (mark_as_processing db tid pid now).2 tid = some "processing" := by
  obtain ⟨r0, hg, _⟩ := selectStatus_pending h
  unfold selectStatus
  rw [mark_getRow_after pid now h hg]
  simp [claimSet]

/-- Once the job is no longer `'pending'`, every further serialized claim
attempt fails and leaves the table unchanged. -/
theorem claimAttempts_not_pending {tid : Nat} (l : List (String × Int)) :
    ∀ db : List Tweet, selectStatus db tid ≠ some "pending" →
      claimAttempts db tid l = (0, db) := by
  induction l with
  | nil => intro db _; rfl
  | cons a rest ih =>
    intro db h
    have hm := mark_as_processing_not_pending a.1 a.2 h
    simp only [claimAttempts, hm]
    exact ih db h

/-- Serialized concurrent claim attempts on a `'pending'` job: the first
succeeds and every later one fails — exactly one success. -/
theorem claimAttempts_exactly_one {db : List Tweet} {tid : Nat} (pid : String) (now : Int)
    (l : List (String × Int)) (h : selectStatus db tid = some "pending") :
    (claimAttempts db tid ((pid, now) :: l)).1 = 1 := by
  have hm := mark_as_processing_pending pid now h
  have hafter := mark_selectStatus_after pid now h
  rw [hm] at hafter
  have hrest := claimAttempts_not_pending l _ (by rw [hafter]; simp)
  simp only [claimAttempts, hm, hrest]

/-! ### Preservation lemmas: updates touch only their keyed row -/

theorem mark_db_cases (db : List Tweet) (tid : Nat) (pid : String) (now : Int) :
    (mark_as_processing db tid pid now).2 = db ∨
    (mark_as_processing db tid pid now).2 =
      db.map (fun r => if r.id == tid && r.status == "pending" then claimSet pid now r else r) := by
  unfold mark_as_processing
  cases hs : selectStatus db tid with
  | none => left; rfl
  | some s =>
    dsimp only
    split
    · split
      · left; rfl
      · right; rfl
    · left; rfl

theorem mem_mark_of_ne {r : Tweet} {db : List Tweet} {tid : Nat} (pid : String) (now : Int)
    (hr : r ∈ db) (hne : r.id ≠ tid) :
    r ∈ (mark_as_processing db tid pid now).2 := by
  rcases mark_db_cases db tid pid now with h | h <;> rw [h]
  · exact hr
  · refine List.mem_map.mpr ⟨r, hr, ?_⟩
    simp [hne]

/-- Dispatching one fetched tweet never touches rows keyed to a different id. -/
theorem processTweet_mem_ne {r : Tweet} {db : List Tweet} (users : List User)
    (ev : TweetEvents) (t : Tweet) (pid : String) (now : Int)
    (hr : r ∈ db) (hne : r.id ≠ t.id) :
    r ∈ (processTweet db users ev t pid now).db := by
  have h1 := mem_mark_of_ne pid now hr hne
  unfold processTweet
  rcases hm : mark_as_processing db t.id pid now with ⟨o, db1⟩
  rw [hm] at h1
  cases o with
  | none => exact h1
  | some p =>
    simp only [resetAfterTokenError, failNoTokenUpdate, markPostedUpdate, failRetryUpdate]
    repeat' split
    all_goals
      first
        | exact h1
        | exact mem_sqlUpdate_of_cond_false _ h1 (by simp [hne])

theorem foldProcess_mem {users : List User} {ev : Nat → TweetEvents} {pids : Nat → String}
    {now : Int} {r : Tweet} :
    ∀ (ts : List Tweet) (db : List Tweet), r ∈ db → (∀ t ∈ ts, t.id ≠ r.id) →
      r ∈ ts.foldl (fun acc t => (processTweet acc users (ev t.id) t (pids t.id) now).db) db := by
  intro ts
  induction ts with
  | nil => intro db h _; exact h
  | cons t ts ih =>
    intro db hr hids
    rw [List.foldl_cons]
    refine ih _ (processTweet_mem_ne users (ev t.id) t (pids t.id) now hr ?_) ?_
    · exact fun he => hids t (List.mem_cons_self t ts) he.symm
    · exact fun u hu => hids u (List.mem_cons_of_mem t hu)

/-! ### Batch-selection lemmas -/

theorem fetchDueTweets_mem {db : List Tweet} {now : Int} {t : Tweet}
    (h : t ∈ fetchDueTweets db now) :
    t ∈ db ∧ t.status = "pending" ∧ t.schedule_time ≤ now := by
  unfold fetchDueTweets at h
  have h1 := List.take_subset _ _ h
  rw [List.mem_mergeSort] at h1
  have h2 := List.mem_filter.mp h1
  have h3 := h2.2
  simp at h3
  exact ⟨h2.1, h3.2, h3.1⟩

theorem fetchDueTweets_length (db : List Tweet) (now : Int) :
    (fetchDueTweets db now).length ≤ 5 := by
  unfold fetchDueTweets
  exact List.length_take_le 5 _

theorem fetchDueTweets_sorted (db : List Tweet) (now : Int) :
    (fetchDueTweets db now).Pairwise (fun a b => a.schedule_time ≤ b.schedule_time) := by
  unfold fetchDueTweets
  have hs := @List.sorted_mergeSort Tweet
    (fun a b : Tweet => decide (a.schedule_time ≤ b.schedule_time))
    (by
      intro a b c hab hbc
      simp only [decide_eq_true_eq] at hab hbc ⊢
      omega)
    (by
      intro a b
      simp only [Bool.or_eq_true, decide_eq_true_eq]
      omega)
    (db.filter (fun r => decide (r.schedule_time ≤ now) && r.status == "pending"))
  have ht := List.Pairwise.sublist (List.take_sublist 5 _) hs
  exact ht.imp (by intro a b hab; simpa using hab)

/-! ### Stale-token lemmas -/

theorem stale_cond_false {db : List Tweet} {tid : Nat} {pid : String}
    (h : ∀ r ∈ db, r.id = tid → r.processing_id ≠ some pid) :
    ∀ r ∈ db, (r.id == tid && r.processing_id == some pid) = false := by
  intro r hr
  by_cases hid : r.id = tid
  · have hp := h r hr hid
    simp [hid, hp]
  · simp [hid]

theorem verify_processing_id_stale {db : List Tweet} {tid : Nat} {pid : String}
    (h : ∀ r ∈ db, r.id = tid → r.processing_id ≠ some pid) :
    verify_processing_id db tid pid = false := by
  unfold verify_processing_id
  cases hf : db.find? (fun r => r.id == tid && r.status == "processing") with
  | none => rfl
  | some r =>
    have hp := List.find?_some hf
    have hm := List.mem_of_find?_eq_some hf
    simp at hp
    have hne := h r hm hp.1
    simp [hne]

/-! ### Claim theorems -/

/-- C1: `mark_as_processing` moves a job from `'pending'` to `'processing'`
only when its current status is exactly `'pending'`; on success it stores the
fresh ownership token and `processing_started = NOW()` and returns the token;
when the row is absent or not `'pending'` it returns a failure value, leaves
the table unchanged, and the caller skips the job; serialized concurrent claim
attempts on a `'pending'` job yield exactly one success. -/
theorem claim_C1_claim_exclusivity (db : List Tweet) (tid : Nat) (pid : String) (now : Int)
    (h : selectStatus db tid = some "pending") :
    (mark_as_processing db tid pid now).1 = some pid
    ∧ (∀ r0, getRow db tid = some r0 →
        getRow (mark_as_processing db tid pid now).2 tid = some (claimSet pid now r0)
        ∧ (claimSet pid now r0).status = "processing"
        ∧ (claimSet pid now r0).processing_id = some pid
        ∧ (claimSet pid now r0).processing_started = some now)
    ∧ (∀ db2 : List Tweet, selectStatus db2 tid ≠ some "pending" →
        mark_as_processing db2 tid pid now = (none, db2))
    ∧ (∀ (db2 : List Tweet) (users : List User) (ev : TweetEvents) (t : Tweet),
        t.id = tid → selectStatus db2 tid ≠ some "pending" →
        processTweet db2 users ev t pid now = ⟨db2, false⟩)
    ∧ (∀ l : List (String × Int), (claimAttempts db tid ((pid, now) :: l)).1 = 1) := by
  refine ⟨?_, ?_, ?_, ?_, ?_⟩
  · rw [mark_as_processing_pending pid now h]
  · intro r0 hg
    exact ⟨mark_getRow_after pid now h hg, rfl, rfl, rfl⟩
  · exact fun db2 h2 => mark_as_processing_not_pending pid now h2
  · intro db2 users ev t hteq h2
    have h2x : selectStatus db2 t.id ≠ some "pending" := by rw [hteq]; exact h2
    have hm := mark_as_processing_not_pending pid now h2x
    simp [processTweet, hm]
  · exact fun l => claimAttempts_exactly_one pid now l h

theorem claim_C1_witness :
    selectStatus [⟨1, 1, "m", 0, "public", "pending", none, none, none, none, none⟩] 1 =
      some "pending"
    ∧ (mark_as_processing [⟨1, 1, "m", 0, "public", "pending", none, none, none, none, none⟩]
        1 "tok" 5).1 = some "tok" :=
  ⟨by decide,
   (claim_C1_claim_exclusivity
     [⟨1, 1, "m", 0, "public", "pending", none, none, none, none, none⟩] 1 "tok" 5
     (by decide)).1⟩

/-- C2: every write that takes a job out of `'processing'` — marking posted,
marking failed, resetting to pending on retry, resetting after a
credential-fetch error — is conditioned on the row's `processing_id` matching
the caller's token: with a stale (superseded) token each of these updates
affects 0 rows and leaves the table unchanged, and the ownership re-check
`verify_processing_id` reports false. -/
theorem claim_C2_stale_token_no_write (db : List Tweet) (tid : Nat) (pid : String)
    (now : Int) (err : String)
    (h : ∀ r ∈ db, r.id = tid → r.processing_id ≠ some pid) :
    markPostedUpdate db tid pid now = ⟨0, db⟩
    ∧ failRetryUpdate db tid pid err = ⟨0, db⟩
    ∧ failNoTokenUpdate db tid pid = ⟨0, db⟩
    ∧ resetAfterTokenError db tid pid = ⟨0, db⟩
    ∧ verify_processing_id db tid pid = false := by
  have hc := stale_cond_false h
  exact ⟨sqlUpdate_nomatch _ hc, sqlUpdate_nomatch _ hc, sqlUpdate_nomatch _ hc,
    sqlUpdate_nomatch _ hc, verify_processing_id_stale h⟩

theorem claim_C2_witness :
    markPostedUpdate
        [⟨1, 1, "m", 0, "public", "processing", none, some "other", some 0, none, none⟩]
        1 "tok" 5 =
      ⟨0, [⟨1, 1, "m", 0, "public", "processing", none, some "other", some 0, none, none⟩]⟩ :=
  (claim_C2_stale_token_no_write
    [⟨1, 1, "m", 0, "public", "processing", none, some "other", some 0, none, none⟩]
    1 "tok" 5 "e" (by decide)).1

/-- C3: the failure reconciliation increments `retry_count` by one in the same
conditional update, sets `status` to `'failed'` exactly when the new count
reaches 3 (and back to `'pending'` otherwise), always clears the ownership
token and claim timestamp, and stores the truncated (500-character) error
text; in particular a job with `retry_count = 2` ends with `retry_count = 3`
and `status = 'failed'`. -/
theorem claim_C3_retry_ceiling (db : List Tweet) (tid : Nat) (pid : String) (err : String)
    (r : Tweet) (hr : r ∈ db) (hid : r.id = tid) (hpid : r.processing_id = some pid) :
    failRetrySet (err.take 500) r ∈ (failRetryUpdate db tid pid (err.take 500)).db
    ∧ (failRetrySet (err.take 500) r).retry_count = some (r.retry_count.getD 0 + 1)
    ∧ (r.retry_count.getD 0 + 1 ≥ 3 → (failRetrySet (err.take 500) r).status = "failed")
    ∧ (r.retry_count.getD 0 + 1 < 3 → (failRetrySet (err.take 500) r).status = "pending")
    ∧ (failRetrySet (err.take 500) r).processing_id = none
    ∧ (failRetrySet (err.take 500) r).processing_started = none
    ∧ (failRetrySet (err.take 500) r).error_message = some (err.take 500)
    ∧ (r.retry_count = some 2 →
        (failRetrySet (err.take 500) r).retry_count = some 3
        ∧ (failRetrySet (err.take 500) r).status = "failed") := by
  refine ⟨?_, rfl, ?_, ?_, rfl, rfl, rfl, ?_⟩
  · exact mem_sqlUpdate_of_cond_true _ hr (by simp [hid, hpid])
  · intro h3
    simp [failRetrySet, h3]
  · intro h3
    simp [failRetrySet]
    omega
  · intro h2
    refine ⟨?_, ?_⟩ <;> simp [failRetrySet, h2]

theorem claim_C3_witness :
    (failRetrySet ("boom".take 500)
        ⟨3, 1, "m", 0, "public", "processing", some 2, some "tok", some 0, none, none⟩).retry_count =
      some 3
    ∧ (failRetrySet ("boom".take 500)
        ⟨3, 1, "m", 0, "public", "processing", some 2, some "tok", some 0, none, none⟩).status =
      "failed" :=
  (claim_C3_retry_ceiling
    [⟨3, 1, "m", 0, "public", "processing", some 2, some "tok", some 0, none, none⟩]
    3 "tok" "boom"
    ⟨3, 1, "m", 0, "public", "processing", some 2, some "tok", some 0, none, none⟩
    (by simp) rfl rfl).2.2.2.2.2.2.2 rfl

/-- C4: the success reconciliation is a single conditional update, conditioned
on the ownership token: a matching row becomes `status = 'posted'` with
`posted_at = NOW()` and cleared token and claim timestamp; when no row carries
the caller's token the update affects 0 rows and the table is unchanged. -/
theorem claim_C4_posted_reconciliation (db : List Tweet) (tid : Nat) (pid : String) (now : Int) :
    (∀ r ∈ db, r.id = tid → r.processing_id = some pid →
      postedSet now r ∈ (markPostedUpdate db tid pid now).db
      ∧ (postedSet now r).status = "posted"
      ∧ (postedSet now r).posted_at = some now
      ∧ (postedSet now r).processing_id = none
      ∧ (postedSet now r).processing_started = none)
    ∧ ((∀ r ∈ db, r.id = tid → r.processing_id ≠ some pid) →
        markPostedUpdate db tid pid now = ⟨0, db⟩) := by
  constructor
  · intro r hr hid hpid
    exact ⟨mem_sqlUpdate_of_cond_true _ hr (by simp [hid, hpid]), rfl, rfl, rfl, rfl⟩
  · intro h
    exact sqlUpdate_nomatch _ (stale_cond_false h)

theorem claim_C4_witness :
    postedSet 5 ⟨2, 1, "m", 0, "public", "processing", none, some "tok", some 0, none, none⟩ ∈
      (markPostedUpdate
        [⟨2, 1, "m", 0, "public", "processing", none, some "tok", some 0, none, none⟩]
        2 "tok" 5).db :=
  ((claim_C4_posted_reconciliation
    [⟨2, 1, "m", 0, "public", "processing", none, some "tok", some 0, none, none⟩]
    2 "tok" 5).1
    ⟨2, 1, "m", 0, "public", "processing", none, some "tok", some 0, none, none⟩
    (by simp) rfl rfl).1

/-- C5: each poll cycle fetches at most 5 jobs, all of them rows of the table
with `status = 'pending'` and `schedule_time <= NOW()`, in ascending
`schedule_time` order, and processes exactly that list sequentially in order;
a pending job whose `schedule_time` is in the future is not selected and (when
no other row shares its id) survives the whole batch untouched. -/
theorem claim_C5_batch_selection (db : List Tweet) (now : Int) (users : List User)
    (ev : Nat → TweetEvents) (pids : Nat → String) :
    (fetchDueTweets db now).length ≤ 5
    ∧ (∀ t ∈ fetchDueTweets db now, t ∈ db ∧ t.status = "pending" ∧ t.schedule_time ≤ now)
    ∧ (fetchDueTweets db now).Pairwise (fun a b => a.schedule_time ≤ b.schedule_time)
    ∧ processBatch db users ev pids now =
        (fetchDueTweets db now).foldl
          (fun acc t => (processTweet acc users (ev t.id) t (pids t.id) now).db) db
    ∧ (∀ r ∈ db, r.status = "pending" → now < r.schedule_time →
        (∀ r2 ∈ db, r2.id = r.id → r2 = r) →
        r ∉ fetchDueTweets db now ∧ r ∈ processBatch db users ev pids now) := by
  refine ⟨fetchDueTweets_length db now, fun t ht => fetchDueTweets_mem ht,
    fetchDueTweets_sorted db now, rfl, ?_⟩
  intro r hr hp hf huniq
  constructor
  · intro hmem
    have h2 := (fetchDueTweets_mem hmem).2.2
    omega
  · unfold processBatch
    refine foldProcess_mem _ db hr ?_
    intro t ht heq
    have h1 := fetchDueTweets_mem ht
    have h2 := huniq t h1.1 heq
    rw [h2] at h1
    have h3 := h1.2.2
    omega

theorem claim_C5_witness :
    (⟨2, 1, "later", 100, "public", "pending", none, none, none, none, none⟩ : Tweet) ∉
      fetchDueTweets
        [⟨1, 1, "due", 0, "public", "pending", none, none, none, none, none⟩,
         ⟨2, 1, "later", 100, "public", "pending", none, none, none, none, none⟩] 1
    ∧ (⟨2, 1, "later", 100, "public", "pending", none, none, none, none, none⟩ : Tweet) ∈
      processBatch
        [⟨1, 1, "due", 0, "public", "pending", none, none, none, none, none⟩,
         ⟨2, 1, "later", 100, "public", "pending", none, none, none, none, none⟩]
        [] (fun _ => ⟨false, PublishOutcome.success⟩) (fun _ => "tok") 1 :=
  (claim_C5_batch_selection
    [⟨1, 1, "due", 0, "public", "pending", none, none, none, none, none⟩,
     ⟨2, 1, "later", 100, "public", "pending", none, none, none, none, none⟩]
    1 [] (fun _ => ⟨false, PublishOutcome.success⟩) (fun _ => "tok")).2.2.2.2
    ⟨2, 1, "later", 100, "public", "pending", none, none, none, none, none⟩
    (by simp) rfl (by decide) (by decide)

/-- C7: when no access token exists for the job's owner (no user row, a NULL
token, or an empty one), the claimed job is immediately marked `'failed'`
through the token-guarded update: the publish call is never attempted,
`retry_count` is not incremented, and the job's row ends `'failed'` with the
ownership token and claim timestamp cleared — never reset to `'pending'`. -/
theorem claim_C7_missing_credential (db : List Tweet) (users : List User)
    (ev : TweetEvents) (t : Tweet) (pid : String) (now : Int) (r0 : Tweet)
    (hpend : selectStatus db t.id = some "pending")
    (hg : getRow db t.id = some r0)
    (hev : ev.tokenFetchError = false)
    (htok : pyFalsy (fetchAccessToken users t.user_id) = true) :
    (processTweet db users ev t pid now).attemptedPublish = false
    ∧ getRow (processTweet db users ev t pid now).db t.id =
        some (failNoTokenSet (claimSet pid now r0))
    ∧ (failNoTokenSet (claimSet pid now r0)).status = "failed"
    ∧ (failNoTokenSet (claimSet pid now r0)).retry_count = r0.retry_count
    ∧ (failNoTokenSet (claimSet pid now r0)).processing_id = none
    ∧ (failNoTokenSet (claimSet pid now r0)).processing_started = none := by
  have hm := mark_as_processing_pending pid now hpend
  have hrow1 := mark_getRow_after pid now hpend hg
  rw [hm] at hrow1
  have hid : r0.id = t.id := (getRow_id hg).1
  have hstep : processTweet db users ev t pid now =
      ⟨(failNoTokenUpdate
          (db.map (fun r => if r.id == t.id && r.status == "pending" then claimSet pid now r else r))
          t.id pid).db, false⟩ := by
    simp [processTweet, hm, hev, htok]
  rw [hstep]
  refine ⟨rfl, ?_, rfl, rfl, rfl, rfl⟩
  unfold failNoTokenUpdate
  rw [getRow, sqlUpdate_db_eq]
  rw [find?_map_idpres (by
    intro r
    by_cases hc : (r.id == t.id && r.processing_id == some pid) = true
    · simp [hc, failNoTokenSet]
    · simp [hc])]
  rw [show (List.find? (fun r => r.id == t.id)
      (db.map (fun r => if r.id == t.id && r.status == "pending" then claimSet pid now r else r)))
      = getRow (db.map (fun r => if r.id == t.id && r.status == "pending" then claimSet pid now r else r)) t.id
    from rfl]
  rw [hrow1]
  simp [claimSet, hid]

theorem claim_C7_witness :
    (processTweet [⟨1, 7, "m", 0, "public", "pending", none, none, none, none, none⟩]
      [] ⟨false, PublishOutcome.success⟩
      ⟨1, 7, "m", 0, "public", "pending", none, none, none, none, none⟩ "tok" 5).attemptedPublish =
      false :=
  (claim_C7_missing_credential
    [⟨1, 7, "m", 0, "public", "pending", none, none, none, none, none⟩]
    [] ⟨false, PublishOutcome.success⟩
    ⟨1, 7, "m", 0, "public", "pending", none, none, none, none, none⟩ "tok" 5
    ⟨1, 7, "m", 0, "public", "pending", none, none, none, none, none⟩
    (by decide) (by decide) rfl rfl).1

/-- C6 counterexample: no periodic or stall-timeout reset exists.  A job that
has been sitting in `'processing'` since time 0 is presented to a full poll
cycle at time 1000000 (far beyond any 10-minute stall timeout, which would be
600 seconds): the cycle leaves the row exactly as it was, still `'processing'`
and still holding its dead ownership token — refuting the claim that such a
job is periodically force-reset to `'pending'`. -/
theorem claim_C6_counterexample :
    pollCycle true none
        [⟨1, 1, "m", 0, "public", "processing", none, some "deadtoken", some 0, none, none⟩]
        [] (fun _ => ⟨false, PublishOutcome.success⟩) (fun _ => "tok") 1000000 =
      ⟨[⟨1, 1, "m", 0, "public", "processing", none, some "deadtoken", some 0, none, none⟩],
       true, true, true⟩
    ∧ selectStatus
        (pollCycle true none
          [⟨1, 1, "m", 0, "public", "processing", none, some "deadtoken", some 0, none, none⟩]
          [] (fun _ => ⟨false, PublishOutcome.success⟩) (fun _ => "tok") 1000000).db 1 =
      some "processing"
    ∧ ((1000000 : Int) - 0 ≥ 600) := by
  have hfilter : List.filter
      (fun (r : Tweet) => decide (r.schedule_time ≤ (1000000 : Int)) && r.status == "pending")
      ([⟨1, 1, "m", 0, "public", "processing", none, some "deadtoken", some 0, none, none⟩] :
        List Tweet) =
      [] := by rfl
  have hfetch : fetchDueTweets
      [⟨1, 1, "m", 0, "public", "processing", none, some "deadtoken", some 0, none, none⟩]
      1000000 = [] := by
    unfold fetchDueTweets
    rw [hfilter]
    simp
  have hkey : pollCycle true none
      [⟨1, 1, "m", 0, "public", "processing", none, some "deadtoken", some 0, none, none⟩]
      [] (fun _ => ⟨false, PublishOutcome.success⟩) (fun _ => "tok") 1000000 =
      ⟨[⟨1, 1, "m", 0, "public", "processing", none, some "deadtoken", some 0, none, none⟩],
       true, true, true⟩ := by
    unfold pollCycle acquire_lock processBatch
    rw [hfetch]
    rfl
  refine ⟨hkey, ?_, by decide⟩
  rw [hkey]
  rfl

/-- C6 (amended): unconditionally at process start, before polling begins,
every job in `'processing'` is force-reset to `'pending'` with its ownership
token and claim timestamp cleared, and is then again eligible for claiming;
rows not in `'processing'` are untouched.  (No periodic or stall-timeout
sweep exists — the reset runs only once, at startup.) -/
theorem claim_C6_startup_reset (db : List Tweet) :
    (∀ r ∈ db, r.status = "processing" →
      resetPendingSet r ∈ (resetStuckProcessing db).db
      ∧ (resetPendingSet r).status = "pending"
      ∧ (resetPendingSet r).processing_id = none
      ∧ (resetPendingSet r).processing_started = none)
    ∧ (∀ r ∈ db, r.status ≠ "processing" → r ∈ (resetStuckProcessing db).db)
    ∧ (∀ (tid : Nat) (r0 : Tweet), getRow db tid = some r0 → r0.status = "processing" →
        ∀ (pid : String) (now : Int),
          (mark_as_processing (resetStuckProcessing db).db tid pid now).1 = some pid) := by
  refine ⟨?_, ?_, ?_⟩
  · intro r hr hp
    exact ⟨mem_sqlUpdate_of_cond_true _ hr (by simp [hp]), rfl, rfl, rfl⟩
  · intro r hr hp
    exact mem_sqlUpdate_of_cond_false _ hr (by simp [hp])
  · intro tid r0 hg hp pid now
    have hrow : getRow (resetStuckProcessing db).db tid = some (resetPendingSet r0) := by
      unfold resetStuckProcessing
      rw [getRow, sqlUpdate_db_eq]
      rw [find?_map_idpres (by
        intro r
        by_cases hc : (r.status == "processing") = true
        · simp [hc, resetPendingSet]
        · simp [hc])]
      rw [show List.find? (fun r => r.id == tid) db = getRow db tid from rfl, hg]
      simp [hp]
    have hsel : selectStatus (resetStuckProcessing db).db tid = some "pending" := by
      rw [selectStatus, hrow]
      rfl
    rw [mark_as_processing_pending pid now hsel]

theorem claim_C6_witness :
    (mark_as_processing
      (resetStuckProcessing
        [⟨1, 1, "m", 0, "public", "processing", none, some "deadtoken", some 0, none, none⟩]).db
      1 "tok" 5).1 = some "tok" :=
  (claim_C6_startup_reset
    [⟨1, 1, "m", 0, "public", "processing", none, some "deadtoken", some 0, none, none⟩]).2.2
    1 ⟨1, 1, "m", 0, "public", "processing", none, some "deadtoken", some 0, none, none⟩
    (by decide) rfl "tok" 5

/-- C8: a missing (absent or empty) required setting makes `check_config`
fail, as does any exception from the startup connection attempt; and whenever
`check_config` fails, `post_scheduled_tweets` returns before the poll loop
with the job table untouched. -/
theorem claim_C8_config_startup_fatal (c : Config) (netOk schemaOk : Bool) (db : List Tweet) :
    ((missingVars c).isEmpty = false → check_config c netOk = false)
    ∧ (∀ e, get_connection netOk = Except.error e → check_config c netOk = false)
    ∧ (check_config c netOk = false →
        post_scheduled_tweets_startup c netOk schemaOk db = StartupResult.refused db) := by
  refine ⟨?_, ?_, ?_⟩
  · intro h
    simp [check_config, h]
  · intro e he
    simp [check_config, he]
  · intro h
    simp [post_scheduled_tweets_startup, h]

theorem claim_C8_witness :
    check_config
        ⟨none, some "sec", some "https://mastodon.social", some "db", some "user",
         some "pw", some "localhost", some "5432"⟩ true = false
    ∧ post_scheduled_tweets_startup
        ⟨none, some "sec", some "https://mastodon.social", some "db", some "user",
         some "pw", some "localhost", some "5432"⟩ true true [] =
      StartupResult.refused [] :=
  ⟨(claim_C8_config_startup_fatal
      ⟨none, some "sec", some "https://mastodon.social", some "db", some "user",
       some "pw", some "localhost", some "5432"⟩ true true []).1 (by decide),
   (claim_C8_config_startup_fatal
      ⟨none, some "sec", some "https://mastodon.social", some "db", some "user",
       some "pw", some "localhost", some "5432"⟩ true true []).2.2
     ((claim_C8_config_startup_fatal
        ⟨none, some "sec", some "https://mastodon.social", some "db", some "user",
         some "pw", some "localhost", some "5432"⟩ true true []).1 (by decide))⟩

/-- C9: failing to acquire the instance lock is not an error — the cycle makes
no store read, claims no job (the table is returned unchanged) and just waits
for the next cycle; and whatever happens inside a cycle (lock contention, a
normal batch, or an unhandled exception after any number of tweets), the
`finally` block leaves the lock released at the end of the cycle. -/
theorem claim_C9_lock_contention (lockAvailable : Bool) (raiseAfter : Option Nat)
    (db : List Tweet) (users : List User) (ev : Nat → TweetEvents) (pids : Nat → String)
    (now : Int) :
    (lockAvailable = false →
      acquire_lock lockAvailable = none
      ∧ pollCycle lockAvailable raiseAfter db users ev pids now = ⟨db, false, false, true⟩)
    ∧ (pollCycle lockAvailable raiseAfter db users ev pids now).releasedLock = true := by
  constructor
  · intro h
    subst h
    exact ⟨rfl, rfl⟩
  · cases lockAvailable
    · rfl
    · cases raiseAfter <;> rfl

theorem claim_C9_witness :
    pollCycle false none
        [⟨1, 1, "m", 0, "public", "pending", none, none, none, none, none⟩]
        [] (fun _ => ⟨false, PublishOutcome.success⟩) (fun _ => "tok") 5 =
      ⟨[⟨1, 1, "m", 0, "public", "pending", none, none, none, none, none⟩],
       false, false, true⟩ :=
  ((claim_C9_lock_contention false none
    [⟨1, 1, "m", 0, "public", "pending", none, none, none, none, none⟩]
    [] (fun _ => ⟨false, PublishOutcome.success⟩) (fun _ => "tok") 5).1 rfl).2

/-- C10: `config.py` never defines `RENDER_DATABASE_URL`, yet `get_connection`
reads exactly that attribute, so every call to `get_connection` raises
(regardless of whether the database itself would be reachable); consequently
`check_config` always returns false and the scheduler as shipped refuses to
start for every environment configuration, never entering the poll loop and
never touching a job row. -/
theorem claim_C10_missing_db_url :
    "RENDER_DATABASE_URL" ∉ configAttrs
    ∧ (∀ netOk : Bool, get_connection netOk =
        Except.error "AttributeError: module config has no attribute RENDER_DATABASE_URL")
    ∧ (∀ (c : Config) (netOk : Bool), check_config c netOk = false)
    ∧ (∀ (c : Config) (netOk schemaOk : Bool) (db : List Tweet),
        post_scheduled_tweets_startup c netOk schemaOk db = StartupResult.refused db) := by
  have hmem : "RENDER_DATABASE_URL" ∉ configAttrs := by decide
  have hconn : ∀ netOk : Bool, get_connection netOk =
      Except.error "AttributeError: module config has no attribute RENDER_DATABASE_URL" := by
    intro netOk
    simp [get_connection, hmem]
  have hcc : ∀ (c : Config) (netOk : Bool), check_config c netOk = false := by
    intro c netOk
    simp [check_config, hconn netOk]
  refine ⟨hmem, hconn, hcc, ?_⟩
  intro c netOk schemaOk db
  simp [post_scheduled_tweets_startup, hcc c netOk]

end DVP
